import Mathlib

/-!
Shallow embedding of the stock-scanning LINE bot (src/app.py) and its
backtest engine (src/backtest.py).

pandas/NumPy float series are modelled as lists of rationals.  NaN is
modelled by `Option ℚ` (`none` = NaN); as in NumPy, every ordered
comparison against NaN is false and arithmetic propagates NaN.  A zero
divisor is modelled as an undefined result except where the IEEE
infinity outcome is observable in the source (see `rsiVal`).
-/

set_option maxHeartbeats 1000000
set_option maxRecDepth 10000

/-- One OHLC bar of a price series (a row of a yfinance DataFrame). -/
structure Bar where
  Open : ℚ
  High : ℚ
  Low : ℚ
  Close : ℚ
deriving DecidableEq

instance : Inhabited Bar := ⟨⟨0, 0, 0, 0⟩⟩

/-- The three market regimes produced by `detect_market_state`
    (the strings TREND / RANGE / VOLATILE in the source). -/
inductive MarketState where
  | TREND
  | RANGE
  | VOLATILE
deriving DecidableEq

/-- NaN-aware strict less-than: any comparison with NaN is false (NumPy semantics). -/
def oLtB : Option ℚ → Option ℚ → Bool
  | some a, some b => decide (a < b)
  | _, _ => false

/-- NaN-aware greater-than. -/
def oGtB (a b : Option ℚ) : Bool := oLtB b a

/-- NaN-aware less-or-equal. -/
def oLeB : Option ℚ → Option ℚ → Bool
  | some a, some b => decide (a ≤ b)
  | _, _ => false

/-- NaN-propagating addition. -/
def oAdd : Option ℚ → Option ℚ → Option ℚ
  | some a, some b => some (a + b)
  | _, _ => none

/-- NaN-propagating subtraction. -/
def oSub : Option ℚ → Option ℚ → Option ℚ
  | some a, some b => some (a - b)
  | _, _ => none

/-- NaN-propagating division.  A zero divisor is modelled as NaN; the
    embedded code only divides by quantities that are nonzero in every
    state the claims touch, so the IEEE ±inf outcomes are not observable
    here (the one observable case, RSI, is modelled in `rsiVal`). -/
def oDiv : Option ℚ → Option ℚ → Option ℚ
  | some a, some b => if b = 0 then none else some (a / b)
  | _, _ => none

/-- NaN-propagating absolute value. -/
def oAbs : Option ℚ → Option ℚ
  | some a => some |a|
  | none => none

/-- Sum of a float series; NaN if any entry is NaN. -/
def oSum : List (Option ℚ) → Option ℚ
  | [] => some 0
  | a :: rest => oAdd a (oSum rest)

/-- `Series.diff()`: first entry NaN, then consecutive differences. -/
def diffO : List ℚ → List (Option ℚ)
  | [] => []
  | x :: xs => none :: List.zipWith (fun prev cur => some (cur - prev)) (x :: xs) xs

/-- One step of `Series.rolling(w).mean()`: `acc` holds the entries already
    seen, most recent first; an output entry is defined once `w` entries have
    been seen and is NaN if the window contains a NaN. -/
def rollMeanGo (w : ℕ) (acc : List (Option ℚ)) : List (Option ℚ) → List (Option ℚ)
  | [] => []
  | x :: rest =>
      (if (x :: acc).length < w then none
       else (oSum ((x :: acc).take w)).map (· / (w : ℚ))) ::
        rollMeanGo w (x :: acc) rest

/-- `Series.rolling(w).mean()` with pandas defaults (`min_periods = w`):
    NaN for the first `w - 1` entries and whenever the window contains a NaN. -/
def rollingMeanO (w : ℕ) (xs : List (Option ℚ)) : List (Option ℚ) :=
  rollMeanGo w [] xs

/-- `rolling(w).mean()` of an all-defined series. -/
def rollingMeanQ (w : ℕ) (xs : List ℚ) : List (Option ℚ) :=
  rollingMeanO w (xs.map some)

/-- `.iloc[-1]` of a float series; NaN when the series is empty. -/
def lastO : List (Option ℚ) → Option ℚ
  | [] => none
  | [a] => a
  | _ :: b :: rest => lastO (b :: rest)

/-- The gain series of the RSI(14) computation (`delta.where(delta > 0, 0)`,
    src/app.py lines 507-509, and identically src/backtest.py lines 31-33):
    the first `diff` entry is NaN, and `where` replaces it by 0 because the
    NaN comparison is false. -/
def gains (closes : List ℚ) : List ℚ :=
  (diffO closes).map fun o =>
    match o with
    | some d => if d > 0 then d else 0
    | none => 0

/-- The loss series of the RSI(14) computation (`-delta.where(delta < 0, 0)`). -/
def losses (closes : List ℚ) : List ℚ :=
  (diffO closes).map fun o =>
    match o with
    | some d => if d < 0 then -d else 0
    | none => 0

/-- `100 - 100/(1 + gain/loss)` under IEEE float semantics for the
    nonnegative averages produced by the RSI pipeline: a positive loss gives
    the usual value; zero loss with nonzero gain gives `rs = inf`, hence
    RSI exactly 100; `0/0` is NaN, hence an undefined RSI. -/
def rsiVal (g l : ℚ) : Option ℚ :=
  if l ≠ 0 then some (100 - 100 / (1 + g / l))
  else if g ≠ 0 then some 100
  else none

/-- The RSI(14) series (src/app.py lines 507-511, src/backtest.py lines 31-35,
    and the scanner's copy at src/app.py lines 714-718). -/
def rsiSeries (closes : List ℚ) : List (Option ℚ) :=
  List.zipWith (fun og ol => og.bind fun g => ol.bind fun l => rsiVal g l)
    (rollingMeanQ 14 (gains closes)) (rollingMeanQ 14 (losses closes))

namespace App

/-- True-range series of src/app.py `calculate_adx` / `calculate_atr`:
    row-wise `max(high-low, |high-prev_close|, |low-prev_close|)`.  On the
    first bar the two shifted terms are NaN and pandas' row-wise `max`
    skips NaN, leaving `high - low`. -/
def trueRangeAux (prevClose : ℚ) : List Bar → List ℚ
  | [] => []
  | b :: rest =>
      max (b.High - b.Low) (max |b.High - prevClose| |b.Low - prevClose|) ::
        trueRangeAux b.Close rest

/-- True range including the first-bar special case. -/
def trueRange : List Bar → List ℚ
  | [] => []
  | b :: rest => (b.High - b.Low) :: trueRangeAux b.Close rest

/-- src/app.py `calculate_atr` (window 14). -/
def calculate_atr (bars : List Bar) : List (Option ℚ) :=
  rollingMeanQ 14 (trueRange bars)

/-- `plus_dm` entries after the first bar (`np.where((up > down) & (up > 0), up, 0.0)`). -/
def plusDmAux (prev : Bar) : List Bar → List ℚ
  | [] => []
  | b :: rest =>
      (if b.High - prev.High > prev.Low - b.Low ∧ b.High - prev.High > 0
        then b.High - prev.High else 0) :: plusDmAux b rest

/-- `plus_dm` of src/app.py `calculate_adx`; the first entry is 0.0 (not NaN)
    because `np.where` treats the NaN comparisons as false. -/
def plusDm : List Bar → List ℚ
  | [] => []
  | b :: rest => 0 :: plusDmAux b rest

/-- `minus_dm` entries after the first bar. -/
def minusDmAux (prev : Bar) : List Bar → List ℚ
  | [] => []
  | b :: rest =>
      (if prev.Low - b.Low > b.High - prev.High ∧ prev.Low - b.Low > 0
        then prev.Low - b.Low else 0) :: minusDmAux b rest

/-- `minus_dm` of src/app.py `calculate_adx`. -/
def minusDm : List Bar → List ℚ
  | [] => []
  | b :: rest => 0 :: minusDmAux b rest

/-- src/app.py `calculate_adx` (window 14 throughout).  The `except`
    fallback of the source (an all-zero series) is unreachable for
    well-formed numeric frames and is not modelled. -/
def calculate_adx (bars : List Bar) : List (Option ℚ) :=
  let atr := rollingMeanQ 14 (trueRange bars)
  let pdi := List.zipWith (fun p a => (oDiv p a).map (100 * ·))
    (rollingMeanQ 14 (plusDm bars)) atr
  let mdi := List.zipWith (fun p a => (oDiv p a).map (100 * ·))
    (rollingMeanQ 14 (minusDm bars)) atr
  let sumDi := List.zipWith (fun p m => oAdd (oAbs (oAdd p m)) (some (1 / 1000000000))) pdi mdi
  let dx := List.zipWith (fun d s => (oDiv d s).map (· * 100))
    (List.zipWith (fun p m => oAbs (oSub p m)) pdi mdi) sumDi
  rollingMeanO 14 dx

/-- `index_df.iloc[-1]['Close']` (the caller guarantees a nonempty frame). -/
def closeLast (bars : List Bar) : ℚ := ((bars.map Bar.Close).getLast?).getD 0

/-- The branch structure of src/app.py `detect_market_state` (lines 389-391),
    factored over the four indicator values read there. -/
def classify (ma20 ma60 adx atrPct : Option ℚ) : MarketState :=
  if oGtB ma20 ma60 && oGtB adx (some 25) then .TREND
  else if oLtB atrPct (some 0.012) then .RANGE
  else .VOLATILE

/-- src/app.py `detect_market_state`. -/
def detect_market_state (bars : List Bar) : MarketState :=
  if bars.isEmpty then .RANGE
  else
    let closes := bars.map Bar.Close
    let adx := lastO (calculate_adx bars)
    let atr := lastO (calculate_atr bars)
    let close := closeLast bars
    let atrPct := if 0 < close then oDiv atr (some close) else some 0
    let ma20 := lastO (rollingMeanQ 20 closes)
    let ma60 := lastO (rollingMeanQ 60 closes)
    classify ma20 ma60 adx atrPct

/-- MA20 of src/app.py `create_stock_chart` (line 501/503). -/
def chartMA20 (closes : List ℚ) : List (Option ℚ) := rollingMeanQ 20 closes

/-- MA60 of src/app.py `create_stock_chart` (lines 500-503): for a series
    shorter than 60 bars the MA60 column is silently aliased to MA20. -/
def chartMA60 (closes : List ℚ) : List (Option ℚ) :=
  if closes.length < 60 then rollingMeanQ 20 closes else rollingMeanQ 60 closes

/-- src/app.py `get_trade_params`: regime → (stop multiple, target multiple,
    max holding days, trade type, risk, max new trades). -/
def get_trade_params : MarketState → ℚ × ℚ × ℕ × String × String × String
  | .TREND => (1.5, 3.5, 30, "趨勢延續單", "中", "2")
  | .RANGE => (1.0, 1.5, 10, "區間突破單", "低", "1")
  | .VOLATILE => (2.0, 2.0, 5, "波動反彈單", "高", "0")

/-- The stop multiple of a regime. -/
def stop_mult (s : MarketState) : ℚ := (get_trade_params s).1

/-- The target multiple of a regime. -/
def target_mult (s : MarketState) : ℚ := (get_trade_params s).2.1

/-- Stop emitted by the scanner (src/app.py line 742). -/
def scanStop (s : MarketState) (price atr : ℚ) : ℚ := price - atr * stop_mult s

/-- Target emitted by the scanner (src/app.py line 743). -/
def scanTarget (s : MarketState) (price atr : ℚ) : ℚ := price + atr * target_mult s

/-- ATR stop of the chart path (src/app.py line 550): fixed multiple 1.5,
    independent of the market regime. -/
def chartAtrStop (price atr : ℚ) : ℚ := price - atr * 1.5

/-- Final stop of the chart path (src/app.py line 551): raised up to MA20
    when the trend direction is bullish (`ma20 > ma60 and slope > 0`,
    line 546) and MA20 lies below the price. -/
def chartFinalStop (price atr ma20 ma60 slope : ℚ) : ℚ :=
  if ma20 > ma60 ∧ slope > 0 ∧ ma20 < price
  then max (chartAtrStop price atr) ma20
  else chartAtrStop price atr

/-- Target of the chart path (src/app.py line 552): fixed multiple 3,
    independent of the market regime. -/
def chartTarget (price atr : ℚ) : ℚ := price + atr * 3

/-- src/app.py `get_position_sizing`. -/
def get_position_sizing (score : ℚ) : String :=
  if score ≥ 90 then "重倉 (1.5x) 🔥"
  else if score ≥ 80 then "標準倉 (1.0x) ✅"
  else if score ≥ 70 then "輕倉 (0.5x) 🛡️"
  else "觀望 (0x) 💤"

/-- src/app.py `check_entry_gate` (lines 450-453). -/
def check_entry_gate (bias rsi : ℚ) : String × String :=
  if bias > 12 then ("WAIT", "乖離過大")
  else if rsi > 85 then ("BAN", "指標過熱")
  else ("PASS", "符合")

/-- Python call semantics for `check_entry_gate`: applying the 2-parameter
    function to an argument list of any other length raises `TypeError`. -/
def check_entry_gate_call (args : List ℚ) : Except String (String × String) :=
  match args with
  | [bias, rsi] => Except.ok (check_entry_gate bias rsi)
  | _ => Except.error "TypeError"

/-- The call at src/app.py line 747:
    `check_entry_gate(r.price, r.rsi, r.ma20)` passes three positional
    arguments to the 2-parameter function. -/
def scan_gate_call (price rsi ma20 : ℚ) : Except String (String × String) :=
  check_entry_gate_call [price, rsi, ma20]

end App

namespace Bt

/-- Round-half-to-even (Python 3 `round` on an exactly representable value). -/
def roundHalfEven (q : ℚ) : ℤ :=
  if q - ⌊q⌋ < 1/2 then ⌊q⌋
  else if q - ⌊q⌋ > 1/2 then ⌊q⌋ + 1
  else if ⌊q⌋ % 2 = 0 then ⌊q⌋ else ⌊q⌋ + 1

/-- Python `round(x, 2)`. -/
def round2 (q : ℚ) : ℚ := (roundHalfEven (q * 100) : ℚ) / 100

/-- src/backtest.py `calculate_position_size`: a continuous ramp, not the
    four discrete tiers of src/app.py `get_position_sizing`. -/
def calculate_position_size (score : ℚ) : ℚ :=
  if score < 60 then 0
  else round2 (0.5 + (score - 60) * (1 / 40))

/-- Exit reason of src/backtest.py `simulate_trade_v5_3`
    (the strings STOP / TARGET / TIME in the source). -/
inductive ExitReason where
  | STOP
  | TARGET
  | TIME
deriving DecidableEq

/-- Regime → (stop multiple, target multiple, max holding days), hard-coded
    at the top of src/backtest.py `simulate_trade_v5_3` (lines 155-157). -/
def trade_params : MarketState → ℚ × ℚ × ℕ
  | .TREND => (1.5, 3.5, 30)
  | .RANGE => (1.0, 1.5, 10)
  | .VOLATILE => (2.0, 2.0, 5)

/-- The bar loop of `simulate_trade_v5_3`: the first bar whose low touches
    the stop exits (`true`, its index); otherwise the first bar whose high
    touches the target exits (`false`, its index); within a bar the stop
    check comes first. -/
def firstHit (stop target : ℚ) : List Bar → ℕ → Option (Bool × ℕ)
  | [], _ => none
  | b :: rest, i =>
      if b.Low ≤ stop then some (true, i)
      else if b.High ≥ target then some (false, i)
      else firstHit stop target rest (i + 1)

/-- src/backtest.py `simulate_trade_v5_3`.  The result is the realized
    return fraction, the exit reason and the positional index of the exit
    bar within the truncated future window; `none` models the IndexError
    the source would raise on an empty future frame (its caller guards
    against that). -/
def simulate_trade_v5_3 (entry : ℚ) (future : List Bar) (atr : ℚ)
    (state : MarketState) : Option (ℚ × ExitReason × ℕ) :=
  let p := trade_params state
  let stop := entry - atr * p.1
  let target := entry + atr * p.2.1
  let fut := future.take p.2.2
  match firstHit stop target fut 0 with
  | some (true, i) => some ((stop - entry) / entry, .STOP, i)
  | some (false, i) => some ((target - entry) / entry, .TARGET, i)
  | none => (fut.getLast?).map fun b => ((b.Close - entry) / entry, .TIME, fut.length - 1)

end Bt

/-- One scanner candidate row, as assembled in src/app.py
    `scan_potential_stocks` and src/backtest.py `run_strategy`. -/
structure ScoreRow where
  rs_rank : ℚ
  price : ℚ
  ma20 : ℚ
  ma60 : ℚ
  slope : ℚ
  vol_ratio : ℚ
  atr : ℚ

/-- One weight configuration (an entry of `WEIGHT_BY_STATE` in src/app.py,
    or of the grid-search config in src/backtest.py). -/
structure ScoreWeights where
  trend : ℚ
  momentum : ℚ
  risk : ℚ

namespace App

/-- src/app.py `WEIGHT_BY_STATE`. -/
def WEIGHT_BY_STATE : MarketState → ScoreWeights
  | .TREND => ⟨0.6, 0.3, 0.1⟩
  | .RANGE => ⟨0.4, 0.2, 0.4⟩
  | .VOLATILE => ⟨0.3, 0.4, 0.3⟩

/-- Trend sub-score of `calculate_score`: `score_rs*0.7 + score_ma*0.3`. -/
def score_trend (r : ScoreRow) : ℚ :=
  r.rs_rank * 100 * 0.7 + (if r.ma20 > r.ma60 then (100 : ℚ) else 0) * 0.3

/-- `(df['slope']/df['price']).fillna(0)`: the NaN of 0/0 becomes 0; prices
    are positive in every reachable state, so slope/0 = ±inf is not
    modelled. -/
def slope_pct (r : ScoreRow) : ℚ :=
  if r.price = 0 then 0 else r.slope / r.price

/-- `np.where(slope_pct > 0, (slope_pct*1000).clip(upper=100), 0)`. -/
def score_slope (r : ScoreRow) : ℚ :=
  if slope_pct r > 0 then min (slope_pct r * 1000) 100 else 0

/-- `np.exp(-((vol - 2.0) ** 2) / 2.0) * 100`. -/
noncomputable def score_vol (r : ScoreRow) : ℝ :=
  Real.exp (-(((r.vol_ratio : ℝ) - 2) ^ 2) / 2) * 100

/-- Momentum sub-score: `score_slope*0.4 + score_vol*0.6`. -/
noncomputable def score_momentum (r : ScoreRow) : ℝ :=
  (score_slope r : ℝ) * 0.4 + score_vol r * 0.6

/-- Risk sub-score: `(100 - |atr/price - 0.03|*100*20).clip(lower=0)`. -/
def score_risk (r : ScoreRow) : ℚ :=
  max (100 - |r.atr / r.price - 0.03| * 100 * 20) 0

/-- The exceptional-setup ("A+") condition of src/app.py `calculate_score`
    (lines 428-432). -/
def is_aplus (r : ScoreRow) : Bool :=
  decide (0.85 ≤ r.rs_rank ∧ r.ma60 < r.ma20 ∧ 0 < r.slope ∧
    1.5 ≤ r.vol_ratio ∧ r.vol_ratio ≤ 2.5 ∧ 60 < score_risk r)

/-- The weighted total of `calculate_score` before bonus and clip. -/
noncomputable def base_score (r : ScoreRow) (w : ScoreWeights) : ℝ :=
  (score_trend r : ℝ) * (w.trend : ℝ) + score_momentum r * (w.momentum : ℝ) +
    (score_risk r : ℝ) * (w.risk : ℝ)

/-- src/app.py `calculate_score` per row: +15 for A+ rows, then the total is
    clipped to an upper bound of 100. -/
noncomputable def calculate_score (r : ScoreRow) (w : ScoreWeights) : ℝ :=
  min (base_score r w + (if is_aplus r then (15 : ℝ) else 0)) 100

end App

namespace Bt

/-- Trend sub-score of src/backtest.py `calculate_score_v5_2`. -/
def score_trend (r : ScoreRow) : ℚ :=
  r.rs_rank * 100 * 0.7 + (if r.ma20 > r.ma60 then (100 : ℚ) else 0) * 0.3

/-- `slope_pct` of `calculate_score_v5_2` (explicit positive-price guard). -/
def slope_pct (r : ScoreRow) : ℚ :=
  if 0 < r.price then r.slope / r.price else 0

/-- `min(max(slope_pct * 1000, 0), 100)`. -/
def score_slope (r : ScoreRow) : ℚ := min (max (slope_pct r * 1000) 0) 100

/-- `np.exp(-((vol - 2.0) ** 2) / 2.0) * 100`. -/
noncomputable def score_vol (r : ScoreRow) : ℝ :=
  Real.exp (-(((r.vol_ratio : ℝ) - 2) ^ 2) / 2) * 100

/-- Momentum sub-score of `calculate_score_v5_2`. -/
noncomputable def score_momentum (r : ScoreRow) : ℝ :=
  (score_slope r : ℝ) * 0.4 + score_vol r * 0.6

/-- `atr_pct` of `calculate_score_v5_2`, defaulting to 0.03 for non-positive
    prices. -/
def atr_pct (r : ScoreRow) : ℚ := if 0 < r.price then r.atr / r.price else 0.03

/-- Risk sub-score of `calculate_score_v5_2`. -/
def score_risk (r : ScoreRow) : ℚ := max (100 - |atr_pct r - 0.03| * 100 * 20) 0

/-- src/backtest.py `calculate_score_v5_2`: the weighted total, with no
    exceptional-setup bonus and no clip. -/
noncomputable def calculate_score_v5_2 (r : ScoreRow) (w : ScoreWeights) : ℝ :=
  (score_trend r : ℝ) * (w.trend : ℝ) + score_momentum r * (w.momentum : ℝ) +
    (score_risk r : ℝ) * (w.risk : ℝ)

end Bt

namespace App

/-- The candle body `|close - open|`. -/
def body (b : Bar) : ℚ := |b.Close - b.Open|

/-- Mean of the `w` entries of `xs` ending `off` entries before the last;
    NaN when there are not enough entries
    (`rolling(w).mean().iloc[-(off+1)]`). -/
def rollLast (xs : List ℚ) (w off : ℕ) : Option ℚ :=
  if w + off ≤ xs.length then some ((((xs.reverse).drop off).take w).sum / w)
  else none

/-- src/app.py `analyze_kline_structure` (the v19.0 narrative engine).
    `ma60Last` is the precomputed `df['MA60'].iloc[-1]` the function reads
    for its trend context (NaN-aware: a NaN MA60 makes the context bearish).
    Fewer than 20 bars short-circuit to the neutral result with strength 0. -/
def analyze_kline_structure (bars : List Bar) (ma60Last : Option ℚ) :
    String × ℚ × String :=
  if bars.length < 20 then ("資料不足", 0, "K線樣本數過少，無法判讀。")
  else
    let rev := bars.reverse
    let t0 := rev.getD 0 default
    let t1 := rev.getD 1 default
    let t2 := rev.getD 2 default
    let closes := bars.map Bar.Close
    let ma5 := rollLast closes 5 0
    let ma20 := rollLast closes 20 0
    let prevMa5 := rollLast closes 5 1
    let prevMa20 := rollLast closes 20 1
    let avgBody0 := ((rev.take 5).map body).sum / 5
    let avgBody := if avgBody0 = 0 then (0.1 : ℚ) else avgBody0
    let bull := oGtB ma20 ma60Last
    if oLeB prevMa5 prevMa20 && oGtB ma5 ma20 && oGtB ma5 prevMa5 &&
        oGtB ma20 prevMa20 then
      ("鳥嘴攻擊型態 🐦", 1.0,
       "【趨勢啟動】5日線強勢突破20日線，且兩者同步上揚，狀似鳥嘴張開，預示波段漲勢發動，是標準的順勢買點。")
    else if t2.Close < t2.Open ∧ t1.Close > t1.Open ∧ t0.Close > t0.Open ∧
        t0.Low > t2.Low ∧ bull = false then
      ("W底雛形 (屁股型態) 🍑", 0.7,
       "【見底訊號】股價不再破底，且出現連續紅K墊高，狀似W底右腳，顯示低檔買盤進駐，適合分批佈局。")
    else if t2.Close < t2.Open ∧ body t1 < avgBody * 0.5 ∧ t0.Close > t0.Open ∧
        t0.Close > (t2.Open + t2.Close) / 2 then
      ("晨星 (Morning Star) 🌅", 0.9,
       "【見底訊號】長黑K後出現跳空小星線，隨後長紅吞噬，代表空方力竭，多方重掌發球權，黎明將至。")
    else if t2.Close > t2.Open ∧ body t1 < avgBody * 0.5 ∧ t0.Close < t0.Open ∧
        t0.Close < (t2.Open + t2.Close) / 2 then
      ("夜星 (Evening Star) 🌃", -0.9,
       "【觸頂訊號】長紅後出現高檔星線，隨後長黑摜壓，暗示多頭氣數已盡，黑夜降臨，建議減碼。")
    else if t1.Close < t1.Open ∧ t0.Close > t0.Open ∧ t0.Close > t1.Open ∧
        t0.Open < t1.Close then
      ("多頭吞噬 🔥", 1.0,
       "【攻擊訊號】一根長紅完全吃掉昨天的黑K，顯示多方買盤湧入，直接扭轉短期劣勢，是強力的進場訊號。")
    else if t1.Close > t1.Open ∧ t0.Close < t0.Open ∧ t0.Close < t1.Open ∧
        t0.Open > t1.Close then
      ("空頭吞噬 🌧️", -1.0,
       "【反轉訊號】一根長黑完全吃掉昨天的紅K，主力高檔倒貨明顯，短線頭部確立，建議離場。")
    else if t0.Close > t0.Open ∧ t1.Close > t1.Open ∧ t2.Close > t2.Open ∧
        t0.Close > t1.Close ∧ t1.Close > t2.Close then
      ("紅三兵 💂‍♂️", 0.8,
       "【趨勢延續】連續三根紅K穩步推升，顯示多頭氣勢如虹，趨勢確立，股價易漲難跌。")
    else if min t0.Close t0.Open - t0.Low > 2 * body t0 ∧ bull = false then
      ("錘頭 (Hammer) 🔨", 0.6,
       "【見底訊號】盤中一度大跌但收盤被強拉回，留下長下影線，代表低檔有強力支撐，空方打不下去了。")
    else if t0.High - max t0.Close t0.Open > 2 * body t0 ∧ bull = true then
      ("流星 (Shooting Star) ☄️", -0.6,
       "【觸頂訊號】盤中衝高失敗，收盤留下長上影線，代表高檔賣壓沈重，是標準的避雷針訊號。")
    else if body t0 < avgBody * 0.2 then
      ("十字星 (Doji) ➕", 0,
       "【中繼整理】開盤價與收盤價幾乎相同，代表多空勢均力敵，市場觀望氣氛濃厚，等待下一根K線表態。")
    else
      ("整理中 (等待訊號)", 0,
       "目前K線無特殊型態，股價依循原有趨勢行進，建議搭配均線方向操作。")

end App

/-- `Series.pct_change(20).iloc[-1]`: NaN with fewer than 21 rows; a zero
    base price (IEEE inf) is modelled as undefined. -/
def pct_change20_last (xs : List ℚ) : Option ℚ :=
  if 21 ≤ xs.length then
    if xs.getD (xs.length - 21) 0 = 0 then none
    else some ((xs.getLast?).getD 0 / xs.getD (xs.length - 21) 0 - 1)
  else none

namespace App

/-- Raw relative strength (src/app.py line 710, identically src/backtest.py
    line 200): `(1 + s_ret) / (1 + b_ret)` for the instrument's and the
    benchmark's 20-day returns.  A zero benchmark gross return (IEEE inf) is
    modelled as undefined. -/
def rs_raw (stock bench : List ℚ) : Option ℚ :=
  match pct_change20_last stock, pct_change20_last bench with
  | some s, some b => if 1 + b = 0 then none else some ((1 + s) / (1 + b))
  | _, _ => none

/-- Follows the spec's words, for comparison: "an instrument's 20-day return
    divided by the benchmark's 20-day return". -/
def rs_raw_specified (stock bench : List ℚ) : Option ℚ :=
  match pct_change20_last stock, pct_change20_last bench with
  | some s, some b => if b = 0 then none else some (s / b)
  | _, _ => none

end App

/-- A 21-bar instrument close series: flat at 10, then one bar at 11
    (20-day return 1/10). -/
def cs21 : List ℚ :=
  [10, 10, 10, 10, 10, 10, 10, 10, 10, 10, 10, 10, 10, 10, 10, 10, 10, 10, 10, 10, 11]

/-- A 21-bar benchmark close series: flat at 20, then one bar at 21
    (20-day return 1/20). -/
def bs21 : List ℚ :=
  [20, 20, 20, 20, 20, 20, 20, 20, 20, 20, 20, 20, 20, 20, 20, 20, 20, 20, 20, 20, 21]

/-- The concrete A+ candidate of spec scenario C: relative-strength rank
    0.9, price 100, MA20 101 > MA60 100, slope 0.1, volume ratio 2.0,
    ATR 1.5 (risk sub-score 70). -/
def srow : ScoreRow :=
  ⟨9 / 10, 100, 101, 100, 1 / 10, 2, 3 / 2⟩

/-- A strictly rising 15-bar series: all losses are 0, all later gains are 1. -/
def upCloses : List ℚ :=
  [100, 101, 102, 103, 104, 105, 106, 107, 108, 109, 110, 111, 112, 113, 114]

/-- A flat 15-bar series: all gains and losses are 0. -/
def flatCloses : List ℚ :=
  [100, 100, 100, 100, 100, 100, 100, 100, 100, 100, 100, 100, 100, 100, 100]

/-- A 20-bar close series 1, 2, ..., 20. -/
def cs20 : List ℚ :=
  [1, 2, 3, 4, 5, 6, 7, 8, 9, 10, 11, 12, 13, 14, 15, 16, 17, 18, 19, 20]

lemma oLtB_none_left (b : Option ℚ) : oLtB none b = false := rfl

lemma oLtB_none_right (a : Option ℚ) : oLtB a none = false := by
  cases a <;> rfl

lemma rollMeanGo_all_none {w : ℕ} :
    ∀ (xs acc : List (Option ℚ)), acc.length + xs.length < w →
      ∀ x ∈ rollMeanGo w acc xs, x = none
  | [], _, _ => by simp [rollMeanGo]
  | x :: rest, acc, h => by
      intro y hy
      simp only [rollMeanGo] at hy
      rcases List.mem_cons.mp hy with h1 | h2
      · rw [h1, if_pos (by simp only [List.length_cons] at h ⊢; omega)]
      · exact rollMeanGo_all_none rest (x :: acc)
          (by simp only [List.length_cons] at h ⊢; omega) y h2

lemma rollingMeanO_all_none {w : ℕ} {xs : List (Option ℚ)} (h : xs.length < w) :
    ∀ x ∈ rollingMeanO w xs, x = none :=
  rollMeanGo_all_none xs [] (by simpa using h)

lemma lastO_eq_none : ∀ (l : List (Option ℚ)), (∀ x ∈ l, x = none) → lastO l = none
  | [], _ => rfl
  | [a], h => h a (by simp)
  | _ :: b :: rest, h =>
      lastO_eq_none (b :: rest) (fun x hx => h x (List.mem_cons_of_mem _ hx))

lemma trueRangeAux_length (c : ℚ) :
    ∀ (l : List Bar), (App.trueRangeAux c l).length = l.length
  | [] => rfl
  | b :: rest => by simp [App.trueRangeAux, trueRangeAux_length b.Close rest]

lemma trueRange_length : ∀ (l : List Bar), (App.trueRange l).length = l.length
  | [] => rfl
  | b :: rest => by simp [App.trueRange, trueRangeAux_length]

lemma rollingMeanQ_all_none {w : ℕ} {xs : List ℚ} (h : xs.length < w) :
    ∀ x ∈ rollingMeanQ w xs, x = none :=
  rollingMeanO_all_none (by simpa using h)

/-- C1: the regime classifier's precedence order is as specified, and the
empty benchmark fails closed to RANGE; but a non-empty series too short for
the indicators does NOT fail closed to RANGE: all NaN comparisons are false,
so (with a positive last close) the classifier falls through to VOLATILE. -/
theorem C1_detect_market_state_amended :
    App.detect_market_state [] = MarketState.RANGE ∧
    (∀ bars : List Bar, bars ≠ [] → bars.length < 14 → 0 < App.closeLast bars →
      App.detect_market_state bars = MarketState.VOLATILE) ∧
    (∀ m20 m60 a ap : ℚ,
      App.classify (some m20) (some m60) (some a) (some ap) =
        if m20 > m60 ∧ a > 25 then MarketState.TREND
        else if ap < 0.012 then MarketState.RANGE
        else MarketState.VOLATILE) := by
  refine ⟨rfl, ?_, ?_⟩
  · intro bars hne hlen hclose
    have hempty : bars.isEmpty = false := by
      cases bars with
      | nil => exact absurd rfl hne
      | cons b rest => rfl
    have hma20 : lastO (rollingMeanQ 20 (bars.map Bar.Close)) = none := by
      apply lastO_eq_none
      apply rollingMeanQ_all_none
      simpa using by omega
    have hatr : lastO (App.calculate_atr bars) = none := by
      apply lastO_eq_none
      apply rollingMeanQ_all_none
      rw [trueRange_length]
      omega
    simp only [App.detect_market_state, hempty, Bool.false_eq_true, if_false,
      if_pos hclose, hma20, hatr]
    simp [App.classify, oDiv, oGtB, oLtB_none_right, oLtB_none_left]
  · intro m20 m60 a ap
    simp only [App.classify, oGtB, oLtB, Bool.and_eq_true, decide_eq_true_eq]

/-- C1 witness: the theorem instantiated on the empty series, a concrete
2-bar series, and concrete indicator values. -/
theorem C1_detect_market_state_amended_witness :
    App.detect_market_state [] = MarketState.RANGE ∧
    App.detect_market_state [⟨100, 101, 99, 100⟩, ⟨101, 102, 100, 101⟩] =
      MarketState.VOLATILE ∧
    App.classify (some 1) (some 0) (some 30) (some 1) = MarketState.TREND :=
  ⟨C1_detect_market_state_amended.1,
   C1_detect_market_state_amended.2.1 _ (by decide) (by decide) (by decide),
   by
    rw [C1_detect_market_state_amended.2.2]
    norm_num⟩

/-- C1 counterexample: a non-empty 2-bar benchmark series (too short for
MA20/MA60/ADX14/ATR14) is classified VOLATILE, not RANGE as claimed. -/
theorem C1_short_series_not_range :
    App.detect_market_state [⟨100, 101, 99, 100⟩, ⟨101, 102, 100, 101⟩] =
      MarketState.VOLATILE ∧
    MarketState.VOLATILE ≠ MarketState.RANGE := by
  constructor
  · decide
  · decide

lemma mem_zipWith {α β γ : Type} {f : α → β → γ} {c : γ} :
    ∀ {as : List α} {bs : List β}, c ∈ List.zipWith f as bs →
      ∃ a, a ∈ as ∧ ∃ b, b ∈ bs ∧ c = f a b := by
  intro as
  induction as with
  | nil => intro bs h; simp at h
  | cons a rest ih =>
      intro bs h
      cases bs with
      | nil => simp at h
      | cons b bs' =>
          rcases List.mem_cons.mp h with h1 | h2
          · exact ⟨a, by simp, b, by simp, h1⟩
          · obtain ⟨a', ha, b', hb, rfl⟩ := ih h2
            exact ⟨a', by simp [ha], b', by simp [hb], rfl⟩

lemma oSum_nonneg : ∀ (l : List (Option ℚ)), (∀ q : ℚ, some q ∈ l → 0 ≤ q) →
    ∀ s : ℚ, oSum l = some s → 0 ≤ s
  | [], _, s, hs => by
      simp only [oSum, Option.some.injEq] at hs
      simp [← hs]
  | a :: rest, h, s, hs => by
      rcases a with _ | q
      · simp [oSum, oAdd] at hs
      · simp only [oSum] at hs
        rcases hr : oSum rest with _ | s'
        · rw [hr] at hs; simp [oAdd] at hs
        · rw [hr] at hs
          simp only [oAdd, Option.some.injEq] at hs
          have hq : 0 ≤ q := h q (by simp)
          have hs' : 0 ≤ s' :=
            oSum_nonneg rest (fun r hr' => h r (List.mem_cons_of_mem _ hr')) s' hr
          rw [← hs]
          linarith

lemma rollMeanGo_nonneg {w : ℕ} :
    ∀ (xs acc : List (Option ℚ)),
      (∀ q : ℚ, some q ∈ acc → 0 ≤ q) → (∀ q : ℚ, some q ∈ xs → 0 ≤ q) →
      ∀ v : ℚ, some v ∈ rollMeanGo w acc xs → 0 ≤ v
  | [], _, _, _, v, hv => by simp [rollMeanGo] at hv
  | x :: rest, acc, hacc, hxs, v, hv => by
      have hcons : ∀ q : ℚ, some q ∈ x :: acc → 0 ≤ q := by
        intro q hq
        rcases List.mem_cons.mp hq with h1 | h2
        · exact hxs q (h1 ▸ List.mem_cons_self _ _)
        · exact hacc q h2
      simp only [rollMeanGo] at hv
      rcases List.mem_cons.mp hv with h1 | h2
      · by_cases hw : (x :: acc).length < w
        · rw [if_pos hw] at h1
          simp at h1
        · rw [if_neg hw] at h1
          rcases hsum : oSum ((x :: acc).take w) with _ | s
          · rw [hsum] at h1; simp at h1
          · rw [hsum] at h1
            simp only [Option.map_some', Option.some.injEq] at h1
            have hs : 0 ≤ s :=
              oSum_nonneg _ (fun q hq => hcons q (List.mem_of_mem_take hq)) s hsum
            rw [h1]
            exact div_nonneg hs (by positivity)
      · exact rollMeanGo_nonneg rest (x :: acc) hcons
          (fun q hq => hxs q (List.mem_cons_of_mem _ hq)) v h2

lemma rollingMeanQ_nonneg {w : ℕ} {xs : List ℚ} (hx : ∀ x ∈ xs, 0 ≤ x)
    {v : ℚ} (hv : some v ∈ rollingMeanQ w xs) : 0 ≤ v := by
  apply rollMeanGo_nonneg (xs.map some) [] (by simp) _ v hv
  intro q hq
  simp only [List.mem_map, Option.some.injEq] at hq
  obtain ⟨x, hx', rfl⟩ := hq
  exact hx x hx'

lemma gains_nonneg (closes : List ℚ) : ∀ x ∈ gains closes, 0 ≤ x := by
  intro x hx
  simp only [gains, List.mem_map] at hx
  obtain ⟨o, _, rfl⟩ := hx
  rcases o with _ | d
  · exact le_refl 0
  · show (0 : ℚ) ≤ if d > 0 then d else 0
    split_ifs with h
    · linarith
    · exact le_refl 0

lemma losses_nonneg (closes : List ℚ) : ∀ x ∈ losses closes, 0 ≤ x := by
  intro x hx
  simp only [losses, List.mem_map] at hx
  obtain ⟨o, _, rfl⟩ := hx
  rcases o with _ | d
  · exact le_refl 0
  · show (0 : ℚ) ≤ if d < 0 then -d else 0
    split_ifs with h
    · linarith
    · exact le_refl 0

lemma rsiVal_bounds {g l : ℚ} (hg : 0 ≤ g) (hl : 0 ≤ l) {v : ℚ}
    (hv : rsiVal g l = some v) : 0 ≤ v ∧ v ≤ 100 := by
  unfold rsiVal at hv
  split_ifs at hv with h1 h2
  · have hl' : 0 < l := lt_of_le_of_ne hl (Ne.symm h1)
    have hx : (1 : ℚ) ≤ 1 + g / l := by
      have : 0 ≤ g / l := div_nonneg hg hl
      linarith
    have hub : 100 / (1 + g / l) ≤ 100 := div_le_self (by norm_num) hx
    have hlb : 0 ≤ 100 / (1 + g / l) := by positivity
    obtain rfl := Option.some.inj hv
    constructor <;> linarith
  · obtain rfl := Option.some.inj hv
    norm_num

/-- C4: RSI(14), where defined, lies in [0, 100]; zero average loss with a
positive average gain gives RSI exactly 100 (the IEEE `inf` path); but on a
flat window both averages are 0 and the RSI is NaN (undefined), not 100. -/
theorem C4_rsi_amended :
    (∀ (closes : List ℚ) (v : ℚ), some v ∈ rsiSeries closes → 0 ≤ v ∧ v ≤ 100) ∧
    (∀ g : ℚ, g ≠ 0 → rsiVal g 0 = some 100) ∧
    rsiVal 0 0 = none := by
  refine ⟨?_, ?_, by decide⟩
  · intro closes v hv
    obtain ⟨og, hog, ol, hol, heq⟩ := mem_zipWith hv
    rcases og with _ | g
    · simp at heq
    rcases ol with _ | l
    · simp at heq
    simp only [Option.some_bind] at heq
    exact rsiVal_bounds
      (rollingMeanQ_nonneg (gains_nonneg closes) hog)
      (rollingMeanQ_nonneg (losses_nonneg closes) hol)
      heq.symm
  · intro g hg
    simp [rsiVal, hg]

/-- C4 witness: the theorem instantiated on a concrete rising series whose
last RSI entry is defined (value 100), and on concrete averages (1, 0). -/
theorem C4_rsi_amended_witness :
    (0 ≤ (100 : ℚ) ∧ (100 : ℚ) ≤ 100) ∧ rsiVal 1 0 = some 100 :=
  ⟨C4_rsi_amended.1 upCloses 100
    (by norm_num [upCloses, rsiSeries, gains, losses, diffO, rollingMeanQ,
      rollingMeanO, rollMeanGo, oSum, oAdd, rsiVal]),
   C4_rsi_amended.2.1 1 (by norm_num)⟩

/-- C4 counterexample: on a flat 15-bar series the 14-bar average loss is
exactly 0, yet the RSI is NaN (undefined), not 100 as claimed. -/
theorem C4_rsi_flat_counterexample :
    lastO (rollingMeanQ 14 (losses flatCloses)) = some 0 ∧
    lastO (rsiSeries flatCloses) = none ∧
    (none : Option ℚ) ≠ some 100 := by
  refine ⟨?_, ?_, by decide⟩
  · norm_num [flatCloses, losses, diffO, rollingMeanQ, rollingMeanO, rollMeanGo,
      oSum, oAdd, lastO]
  · norm_num [flatCloses, rsiSeries, gains, losses, diffO, rollingMeanQ,
      rollingMeanO, rollMeanGo, oSum, oAdd, rsiVal, lastO]

lemma rollMeanGo_get_early {w : ℕ} :
    ∀ (xs acc : List (Option ℚ)) (i : ℕ), i < xs.length →
      acc.length + i + 1 < w → (rollMeanGo w acc xs).get? i = some none
  | [], _, i, h1, _ => by simp at h1
  | x :: rest, acc, 0, _, h2 => by
      simp only [rollMeanGo, List.get?]
      rw [if_pos (by simp only [List.length_cons]; omega)]
  | x :: rest, acc, i + 1, h1, h2 => by
      simp only [rollMeanGo, List.get?]
      exact rollMeanGo_get_early rest (x :: acc) i (by simpa using h1)
        (by simp only [List.length_cons]; omega)

lemma rollingMeanO_get_early {w : ℕ} (xs : List (Option ℚ)) {i : ℕ}
    (h1 : i < xs.length) (h2 : i + 1 < w) :
    (rollingMeanO w xs).get? i = some none :=
  rollMeanGo_get_early xs [] i h1 (by simpa using h2)

/-- C5: every rolling computation of the indicator layer leaves the first
`window - 1` entries undefined and is all-undefined when the series is
shorter than the window — except the chart path's MA60, which for a series
shorter than 60 bars is silently aliased to MA20 (defined from bar 20 on). -/
theorem C5_indicator_undefined_amended :
    (∀ (w : ℕ) (xs : List ℚ) (i : ℕ), i < xs.length → i + 1 < w →
        (rollingMeanQ w xs).get? i = some none) ∧
    (∀ (w : ℕ) (xs : List ℚ), xs.length < w → ∀ x ∈ rollingMeanQ w xs, x = none) ∧
    (∀ closes : List ℚ, closes.length < 60 → App.chartMA60 closes = App.chartMA20 closes) := by
  refine ⟨?_, ?_, ?_⟩
  · intro w xs i h1 h2
    exact rollingMeanO_get_early (xs.map some) (by simpa using h1) h2
  · intro w xs h x hx
    exact rollingMeanQ_all_none h x hx
  · intro closes h
    simp [App.chartMA60, App.chartMA20, h]

/-- C5 witness: the theorem instantiated on concrete series. -/
theorem C5_indicator_undefined_amended_witness :
    (rollingMeanQ 20 cs20).get? 0 = some none ∧
    App.chartMA60 cs20 = App.chartMA20 cs20 :=
  ⟨C5_indicator_undefined_amended.1 20 cs20 0 (by decide) (by decide),
   C5_indicator_undefined_amended.2.2 cs20 (by decide)⟩

/-- C5 counterexample: a 20-bar series is shorter than the 60-bar lookback,
yet the chart path's MA60 is not all-undefined — its last entry is the MA20
value 10.5, another indicator's value. -/
theorem C5_ma60_alias_counterexample :
    cs20.length = 20 ∧
    lastO (App.chartMA60 cs20) = some (21 / 2) ∧
    lastO (rollingMeanQ 20 cs20) = some (21 / 2) ∧
    some ((21 : ℚ) / 2) ≠ none := by
  refine ⟨by decide, ?_, ?_, by decide⟩
  · norm_num [cs20, App.chartMA60, rollingMeanQ, rollingMeanO, rollMeanGo,
      oSum, oAdd, lastO]
  · norm_num [cs20, rollingMeanQ, rollingMeanO, rollMeanGo, oSum, oAdd, lastO]

/-- C2: the regime parameter table is as specified, the scanner's emitted
stop/target use the regime multiples (no MA20 tightening there), the chart
path's stop is tightened up to MA20 (never loosened) in a bullish trend with
MA20 below price, and in TREND `stop < entry < target` for positive ATR; but
the chart path uses the fixed multiples 1.5 (stop) and 3 (target)
independent of the regime, so its target is not `price + atr·target_multiple`. -/
theorem C2_trade_params_amended :
    (App.get_trade_params .TREND = (1.5, 3.5, 30, "趨勢延續單", "中", "2") ∧
     App.get_trade_params .RANGE = (1.0, 1.5, 10, "區間突破單", "低", "1") ∧
     App.get_trade_params .VOLATILE = (2.0, 2.0, 5, "波動反彈單", "高", "0")) ∧
    (∀ (s : MarketState) (price atr : ℚ),
      App.scanStop s price atr = price - atr * (App.get_trade_params s).1 ∧
      App.scanTarget s price atr = price + atr * (App.get_trade_params s).2.1) ∧
    (∀ price atr ma20 ma60 slope : ℚ,
      App.chartAtrStop price atr ≤ App.chartFinalStop price atr ma20 ma60 slope ∧
      (ma20 > ma60 → slope > 0 → App.chartAtrStop price atr < ma20 → ma20 < price →
        App.chartFinalStop price atr ma20 ma60 slope = ma20) ∧
      (ma20 ≤ App.chartAtrStop price atr →
        App.chartFinalStop price atr ma20 ma60 slope = App.chartAtrStop price atr)) ∧
    (∀ price atr : ℚ, App.chartAtrStop price atr = price - atr * 1.5 ∧
      App.chartTarget price atr = price + atr * 3) ∧
    (∀ price atr : ℚ, 0 < atr →
      App.scanStop .TREND price atr < price ∧ price < App.scanTarget .TREND price atr) := by
  refine ⟨⟨rfl, rfl, rfl⟩, ?_, ?_, fun _ _ => ⟨rfl, rfl⟩, ?_⟩
  · intro s price atr
    exact ⟨rfl, rfl⟩
  · intro price atr ma20 ma60 slope
    refine ⟨?_, ?_, ?_⟩
    · unfold App.chartFinalStop
      split_ifs with h
      · exact le_max_left _ _
      · exact le_refl _
    · intro h1 h2 h3 h4
      unfold App.chartFinalStop
      rw [if_pos ⟨h1, h2, h4⟩]
      exact max_eq_right h3.le
    · intro h
      unfold App.chartFinalStop
      split_ifs with hc
      · exact max_eq_left h
      · rfl
  · intro price atr ha
    have h15 : 0 < atr * (1.5 : ℚ) := by positivity
    have h35 : 0 < atr * (3.5 : ℚ) := by positivity
    constructor
    · simp only [App.scanStop, App.stop_mult, App.get_trade_params]
      linarith
    · simp only [App.scanTarget, App.target_mult, App.get_trade_params]
      linarith

/-- C2 witness: the theorem instantiated at concrete prices: a bullish chart
stop tightened to MA20 = 98, and the TREND ordering at price 100, ATR 2. -/
theorem C2_trade_params_amended_witness :
    App.chartFinalStop 100 2 98 90 1 = 98 ∧
    App.scanStop .TREND 100 2 < 100 ∧ (100 : ℚ) < App.scanTarget .TREND 100 2 :=
  ⟨(C2_trade_params_amended.2.2.1 100 2 98 90 1).2.1 (by norm_num) (by norm_num)
      (by norm_num [App.chartAtrStop]) (by norm_num),
   (C2_trade_params_amended.2.2.2.2 100 2 (by norm_num)).1,
   (C2_trade_params_amended.2.2.2.2 100 2 (by norm_num)).2⟩

/-- C2 counterexample: the chart path's target at price 100, ATR 1 is 103,
which matches no regime's `price + atr·target_multiple` (103.5 / 101.5 / 102);
and the scanner's TREND stop at price 100, ATR 2 stays at 97 even though
MA20 = 98 lies between the ATR stop and the price. -/
theorem C2_chart_target_counterexample :
    App.chartTarget 100 1 = 103 ∧
    App.scanTarget .TREND 100 1 = 103.5 ∧
    App.scanTarget .RANGE 100 1 = 101.5 ∧
    App.scanTarget .VOLATILE 100 1 = 102 ∧
    ((103 : ℚ) ≠ 103.5 ∧ (103 : ℚ) ≠ 101.5 ∧ (103 : ℚ) ≠ 102) ∧
    App.scanStop .TREND 100 2 = 97 ∧
    ((97 : ℚ) < 98 ∧ (98 : ℚ) < 100 ∧ (97 : ℚ) ≠ 98) := by
  norm_num [App.chartTarget, App.scanTarget, App.scanStop, App.target_mult,
    App.stop_mult, App.get_trade_params]

/-- C3: the entry gate itself is the specified total function of
`(bias, rsi)`, and on the chart path's bias value it returns PASS here; but
the ranked-output path calls it with three positional arguments
(`price, rsi, ma20`), which raises `TypeError` instead of evaluating the
gate, so no candidate is ever gated as the claim describes. -/
theorem C3_gate_call_type_error :
    App.scan_gate_call 100 50 90 = Except.error "TypeError" ∧
    App.check_entry_gate ((100 - 90) / 90 * 100) 50 = ("PASS", "符合") ∧
    (∀ bias rsi : ℚ, bias > 12 → App.check_entry_gate bias rsi = ("WAIT", "乖離過大")) ∧
    (∀ bias rsi : ℚ, bias ≤ 12 → rsi > 85 →
      App.check_entry_gate bias rsi = ("BAN", "指標過熱")) ∧
    (∀ bias rsi : ℚ, bias ≤ 12 → rsi ≤ 85 →
      App.check_entry_gate bias rsi = ("PASS", "符合")) := by
  refine ⟨rfl, ?_, ?_, ?_, ?_⟩
  · unfold App.check_entry_gate
    rw [if_neg (by norm_num), if_neg (by norm_num)]
  · intro bias rsi h
    unfold App.check_entry_gate
    rw [if_pos h]
  · intro bias rsi h1 h2
    unfold App.check_entry_gate
    rw [if_neg (not_lt.mpr h1), if_pos h2]
  · intro bias rsi h1 h2
    unfold App.check_entry_gate
    rw [if_neg (not_lt.mpr h1), if_neg (not_lt.mpr h2)]

/-- C3 witness: the theorem's gate clauses instantiated at concrete inputs. -/
theorem C3_gate_call_type_error_witness :
    App.check_entry_gate 20 50 = ("WAIT", "乖離過大") ∧
    App.check_entry_gate 5 90 = ("BAN", "指標過熱") ∧
    App.check_entry_gate 5 50 = ("PASS", "符合") :=
  ⟨C3_gate_call_type_error.2.2.1 20 50 (by norm_num),
   C3_gate_call_type_error.2.2.2.1 5 90 (by norm_num) (by norm_num),
   C3_gate_call_type_error.2.2.2.2 5 50 (by norm_num) (by norm_num)⟩

/-- C6: src/app.py `get_position_sizing` implements exactly the four claimed
tiers, but src/backtest.py `calculate_position_size` does not: it is 0 below
a threshold of 60 (not 70) and otherwise the continuous ramp
`round(0.5 + (score-60)/40, 2)`. -/
theorem C6_position_sizing_amended : ∀ s : ℚ,
    (90 ≤ s → App.get_position_sizing s = "重倉 (1.5x) 🔥") ∧
    (80 ≤ s → s < 90 → App.get_position_sizing s = "標準倉 (1.0x) ✅") ∧
    (70 ≤ s → s < 80 → App.get_position_sizing s = "輕倉 (0.5x) 🛡️") ∧
    (s < 70 → App.get_position_sizing s = "觀望 (0x) 💤") ∧
    (s < 60 → Bt.calculate_position_size s = 0) ∧
    (60 ≤ s → Bt.calculate_position_size s = Bt.round2 (0.5 + (s - 60) * (1 / 40))) := by
  intro s
  refine ⟨?_, ?_, ?_, ?_, ?_, ?_⟩
  · intro h
    unfold App.get_position_sizing
    rw [if_pos h]
  · intro h1 h2
    unfold App.get_position_sizing
    rw [if_neg (not_le.mpr h2), if_pos h1]
  · intro h1 h2
    unfold App.get_position_sizing
    rw [if_neg (by linarith), if_neg (not_le.mpr h2), if_pos h1]
  · intro h
    unfold App.get_position_sizing
    rw [if_neg (by linarith), if_neg (by linarith), if_neg (not_le.mpr h)]
  · intro h
    unfold Bt.calculate_position_size
    rw [if_pos h]
  · intro h
    unfold Bt.calculate_position_size
    rw [if_neg (not_lt.mpr h)]

/-- C6 witness: the theorem instantiated at concrete scores. -/
theorem C6_position_sizing_amended_witness :
    App.get_position_sizing 95 = "重倉 (1.5x) 🔥" ∧
    App.get_position_sizing 85 = "標準倉 (1.0x) ✅" ∧
    App.get_position_sizing 75 = "輕倉 (0.5x) 🛡️" ∧
    App.get_position_sizing 50 = "觀望 (0x) 💤" ∧
    Bt.calculate_position_size 50 = 0 ∧
    Bt.calculate_position_size 70 = Bt.round2 (0.5 + (70 - 60) * (1 / 40)) :=
  ⟨(C6_position_sizing_amended 95).1 (by norm_num),
   (C6_position_sizing_amended 85).2.1 (by norm_num) (by norm_num),
   (C6_position_sizing_amended 75).2.2.1 (by norm_num) (by norm_num),
   (C6_position_sizing_amended 50).2.2.2.1 (by norm_num),
   (C6_position_sizing_amended 50).2.2.2.2.1 (by norm_num),
   (C6_position_sizing_amended 70).2.2.2.2.2 (by norm_num)⟩

/-- C6 counterexample: at score 70 the claimed tier is 0.5×, but the
backtest sizes the position at 0.75×. -/
theorem C6_backtest_sizing_counterexample :
    Bt.calculate_position_size 70 = 3 / 4 ∧
    App.get_position_sizing 70 = "輕倉 (0.5x) 🛡️" ∧
    (3 : ℚ) / 4 ≠ 1 / 2 := by
  refine ⟨?_, ?_, by norm_num⟩
  · have h75 : ((0.5 : ℚ) + (70 - 60) * (1 / 40)) * 100 = 75 := by norm_num
    rw [Bt.calculate_position_size, if_neg (by norm_num), Bt.round2, h75]
    rw [Bt.roundHalfEven]
    norm_num
  · rw [App.get_position_sizing, if_neg (by norm_num), if_neg (by norm_num),
      if_pos (by norm_num)]

lemma firstHit_none (stop target : ℚ) :
    ∀ (l : List Bar) (k : ℕ),
      (∀ b ∈ l, stop < b.Low ∧ b.High < target) →
      Bt.firstHit stop target l k = none
  | [], _, _ => rfl
  | b :: rest, k, h => by
      have hb := h b (List.mem_cons_self _ _)
      simp only [Bt.firstHit]
      rw [if_neg (not_le.mpr hb.1), if_neg (not_le.mpr hb.2)]
      exact firstHit_none stop target rest (k + 1)
        (fun x hx => h x (List.mem_cons_of_mem _ hx))

lemma firstHit_first_trigger (stop target : ℚ) :
    ∀ (l : List Bar) (k i : ℕ) (b : Bar),
      l.get? i = some b →
      (∀ (j : ℕ) (bj : Bar), j < i → l.get? j = some bj →
          stop < bj.Low ∧ bj.High < target) →
      ((b.Low ≤ stop → Bt.firstHit stop target l k = some (true, k + i)) ∧
       (stop < b.Low → target ≤ b.High →
          Bt.firstHit stop target l k = some (false, k + i)))
  | [], _, i, b, hget, _ => by simp at hget
  | c :: rest, k, 0, b, hget, _ => by
      simp only [List.get?] at hget
      obtain rfl := Option.some.inj hget
      constructor
      · intro h1
        simp only [Bt.firstHit]
        rw [if_pos h1, Nat.add_zero]
      · intro h1 h2
        simp only [Bt.firstHit]
        rw [if_neg (not_le.mpr h1), if_pos h2, Nat.add_zero]
  | c :: rest, k, i + 1, b, hget, hpre => by
      have hc := hpre 0 c (by omega) rfl
      have hrec := firstHit_first_trigger stop target rest (k + 1) i b
        (by simpa using hget)
        (fun j bj hj hbj => hpre (j + 1) bj (by omega) (by simpa using hbj))
      have harith : k + 1 + i = k + (i + 1) := by omega
      constructor
      · intro h1
        simp only [Bt.firstHit]
        rw [if_neg (not_le.mpr hc.1), if_neg (not_le.mpr hc.2), ← harith]
        exact hrec.1 h1
      · intro h1 h2
        simp only [Bt.firstHit]
        rw [if_neg (not_le.mpr hc.1), if_neg (not_le.mpr hc.2), ← harith]
        exact hrec.2 h1 h2

/-- C7: the forward simulation walks at most `max_holding_days` bars and
exits at the first of stop touch (STOP, at the stop price), target touch
(TARGET, at the target price) or exhaustion (TIME, at the last close), with
return `(exit - entry)/entry`; but stop and target are derived from the
regime as `entry ∓ atr·multiple`, so the claimed scenario "stop 95, target
110 from entry 100" is not realizable — with ATR 5 in RANGE the stop is 95
and the target is 107.5.  The scenario's outcome (STOP at day 3, return
-0.05) does hold for the derived target. -/
theorem C7_simulate_trade_amended :
    (∀ (entry atr : ℚ) (state : MarketState) (future : List Bar),
      Bt.simulate_trade_v5_3 entry future atr state =
        Bt.simulate_trade_v5_3 entry (future.take (Bt.trade_params state).2.2) atr state) ∧
    (∀ (entry atr : ℚ) (state : MarketState) (future : List Bar),
      (∀ b ∈ future.take (Bt.trade_params state).2.2,
          entry - atr * (Bt.trade_params state).1 < b.Low ∧
          b.High < entry + atr * (Bt.trade_params state).2.1) →
      ∀ b' : Bar, (future.take (Bt.trade_params state).2.2).getLast? = some b' →
      Bt.simulate_trade_v5_3 entry future atr state =
        some ((b'.Close - entry) / entry, Bt.ExitReason.TIME,
          (future.take (Bt.trade_params state).2.2).length - 1)) ∧
    (∀ (entry atr : ℚ) (state : MarketState) (future : List Bar) (i : ℕ) (b : Bar),
      (future.take (Bt.trade_params state).2.2).get? i = some b →
      (∀ (j : ℕ) (bj : Bar), j < i →
          (future.take (Bt.trade_params state).2.2).get? j = some bj →
          entry - atr * (Bt.trade_params state).1 < bj.Low ∧
          bj.High < entry + atr * (Bt.trade_params state).2.1) →
      ((b.Low ≤ entry - atr * (Bt.trade_params state).1 →
        Bt.simulate_trade_v5_3 entry future atr state =
          some ((entry - atr * (Bt.trade_params state).1 - entry) / entry,
            Bt.ExitReason.STOP, i)) ∧
       (entry - atr * (Bt.trade_params state).1 < b.Low →
        entry + atr * (Bt.trade_params state).2.1 ≤ b.High →
        Bt.simulate_trade_v5_3 entry future atr state =
          some ((entry + atr * (Bt.trade_params state).2.1 - entry) / entry,
            Bt.ExitReason.TARGET, i)))) ∧
    Bt.simulate_trade_v5_3 100
        [⟨0, 101, 98, 100⟩, ⟨0, 101, 98, 100⟩, ⟨0, 101, 95, 96⟩] 5 .RANGE =
      some (-(1 / 20), Bt.ExitReason.STOP, 2) := by
  refine ⟨?_, ?_, ?_, ?_⟩
  · intro entry atr state future
    simp only [Bt.simulate_trade_v5_3, List.take_take, Nat.min_self]
  · intro entry atr state future hall b' hb'
    simp only [Bt.simulate_trade_v5_3]
    rw [firstHit_none _ _ _ 0 hall, hb']
    rfl
  · intro entry atr state future i b hget hpre
    have h := firstHit_first_trigger
      (entry - atr * (Bt.trade_params state).1)
      (entry + atr * (Bt.trade_params state).2.1)
      (future.take (Bt.trade_params state).2.2) 0 i b hget hpre
    constructor
    · intro h1
      simp only [Bt.simulate_trade_v5_3]
      rw [h.1 h1]
      simp
    · intro h1 h2
      simp only [Bt.simulate_trade_v5_3]
      rw [h.2 h1 h2]
      simp
  · simp only [Bt.simulate_trade_v5_3, Bt.trade_params]
    rw [List.take_of_length_le (by norm_num)]
    norm_num [Bt.firstHit]

/-- C7 witness: the theorem's TIME and STOP clauses instantiated on concrete
RANGE trades (entry 100, ATR 5: stop 95, target 107.5). -/
theorem C7_simulate_trade_amended_witness :
    Bt.simulate_trade_v5_3 100 [⟨0, 101, 98, 100⟩] 5 .RANGE =
      some (0, Bt.ExitReason.TIME, 0) ∧
    Bt.simulate_trade_v5_3 100
        [⟨0, 101, 98, 100⟩, ⟨0, 101, 98, 100⟩, ⟨0, 101, 95, 96⟩] 5 .RANGE =
      some (-(1 / 20), Bt.ExitReason.STOP, 2) := by
  constructor
  · have h := C7_simulate_trade_amended.2.1 100 5 .RANGE [⟨0, 101, 98, 100⟩]
      (by
        intro b hb
        simp only [Bt.trade_params] at hb ⊢
        rw [List.take_of_length_le (by norm_num)] at hb
        simp only [List.mem_singleton] at hb
        subst hb
        norm_num)
      ⟨0, 101, 98, 100⟩
      (by
        simp only [Bt.trade_params]
        rw [List.take_of_length_le (by norm_num)]
        rfl)
    rw [h]
    norm_num [Bt.trade_params]
  · have h := (C7_simulate_trade_amended.2.2.1 100 5 .RANGE
      [⟨0, 101, 98, 100⟩, ⟨0, 101, 98, 100⟩, ⟨0, 101, 95, 96⟩] 2 ⟨0, 101, 95, 96⟩
      (by
        simp only [Bt.trade_params]
        rw [List.take_of_length_le (by norm_num)]
        rfl)
      (by
        intro j bj hj hbj
        simp only [Bt.trade_params] at hbj ⊢
        rw [List.take_of_length_le (by norm_num)] at hbj
        interval_cases j <;> simp only [List.get?] at hbj <;>
          (obtain rfl := Option.some.inj hbj) <;> norm_num)).1
      (by norm_num [Bt.trade_params])
    rw [h]
    norm_num [Bt.trade_params]

/-- C7 counterexample: in the claimed scenario (entry 100, stop 95, "target
110"), a day-2 high of 108 — below 110 — already triggers a TARGET exit,
because the code's derived RANGE target is 107.5, not 110; the trade does
not reach day 3's stop touch with return -0.05 as claimed. -/
theorem C7_target_110_counterexample :
    Bt.simulate_trade_v5_3 100
        [⟨0, 101, 98, 100⟩, ⟨0, 108, 98, 107⟩, ⟨0, 101, 95, 96⟩] 5 .RANGE =
      some (3 / 40, Bt.ExitReason.TARGET, 1) ∧
    ((101 : ℚ) < 110 ∧ (108 : ℚ) < 110 ∧ (101 : ℚ) < 110) ∧
    (95 : ℚ) ≤ 95 ∧
    some ((3 : ℚ) / 40, Bt.ExitReason.TARGET, (1 : ℕ)) ≠
      some (-(1 / 20), Bt.ExitReason.STOP, (2 : ℕ)) := by
  refine ⟨?_, by norm_num, by norm_num, by simp⟩
  · simp only [Bt.simulate_trade_v5_3, Bt.trade_params]
    rw [List.take_of_length_le (by norm_num)]
    norm_num [Bt.firstHit]

lemma score_slope_eq {r : ScoreRow} (hp : 0 < r.price) :
    App.score_slope r = Bt.score_slope r := by
  have hps : App.slope_pct r = Bt.slope_pct r := by
    unfold App.slope_pct Bt.slope_pct
    rw [if_neg (ne_of_gt hp), if_pos hp]
  unfold App.score_slope Bt.score_slope
  rw [hps]
  rcases le_or_lt (Bt.slope_pct r) 0 with h | h
  · rw [if_neg (not_lt.mpr h)]
    have h1000 : Bt.slope_pct r * 1000 ≤ 0 := by nlinarith
    rw [max_eq_right h1000, min_eq_left (by norm_num : (0 : ℚ) ≤ 100)]
  · rw [if_pos h]
    have h1000 : 0 ≤ Bt.slope_pct r * 1000 := by positivity
    rw [max_eq_left h1000]

lemma score_risk_eq {r : ScoreRow} (hp : 0 < r.price) :
    App.score_risk r = Bt.score_risk r := by
  unfold App.score_risk Bt.score_risk Bt.atr_pct
  rw [if_pos hp]

/-- C8: for positive prices the backtest scorer computes exactly the app
scorer's weighted base total, and the +15 exceptional-setup bonus (with the
100 clip) is applied by the app's `calculate_score` alone — the backtest
replay's `calculate_score_v5_2` adds no bonus (and no clip). -/
theorem C8_aplus_bonus_amended :
    ∀ (r : ScoreRow) (w : ScoreWeights), 0 < r.price →
      Bt.calculate_score_v5_2 r w = App.base_score r w ∧
      (App.is_aplus r = true →
        App.calculate_score r w = min (Bt.calculate_score_v5_2 r w + 15) 100) ∧
      (App.is_aplus r = false →
        App.calculate_score r w = min (Bt.calculate_score_v5_2 r w) 100) := by
  intro r w hp
  have hbase : Bt.calculate_score_v5_2 r w = App.base_score r w := by
    unfold Bt.calculate_score_v5_2 App.base_score Bt.score_momentum
      App.score_momentum Bt.score_vol App.score_vol Bt.score_trend App.score_trend
    rw [score_slope_eq hp, score_risk_eq hp]
  refine ⟨hbase, ?_, ?_⟩
  · intro ha
    unfold App.calculate_score
    rw [ha, hbase]
    simp
  · intro ha
    unfold App.calculate_score
    rw [ha, hbase]
    simp

/-- C8 witness: scenario C's candidate (rank 0.9, MA20 > MA60, slope > 0,
volume ratio 2.0, risk sub-score 70) is A+, and the theorem instantiated on
it under the TREND weights. -/
theorem C8_aplus_bonus_amended_witness :
    App.is_aplus srow = true ∧
    App.calculate_score srow (App.WEIGHT_BY_STATE .TREND) =
      min (Bt.calculate_score_v5_2 srow (App.WEIGHT_BY_STATE .TREND) + 15) 100 := by
  have habs : |srow.atr / srow.price - 0.03| = 3 / 200 := by
    rw [show srow.atr / srow.price = 3 / 200 from by norm_num [srow]]
    rw [abs_of_nonpos (by norm_num)]
    norm_num
  have harisk : App.score_risk srow = 70 := by
    rw [App.score_risk, habs, max_eq_left (by norm_num)]
    norm_num
  have haplus : App.is_aplus srow = true := by
    simp only [App.is_aplus, decide_eq_true_eq]
    refine ⟨by norm_num [srow], by norm_num [srow], by norm_num [srow],
      by norm_num [srow], by norm_num [srow], ?_⟩
    rw [harisk]
    norm_num
  exact ⟨haplus,
    (C8_aplus_bonus_amended srow _ (by norm_num [srow])).2.1 haplus⟩

/-- C8 counterexample: on scenario C's candidate under the TREND weights the
app score is 95.92 (the +15 bonus applied to the 80.92 base) but the
backtest replay's score is the bare 80.92 — the bonus does not apply there. -/
theorem C8_backtest_no_bonus_counterexample :
    Bt.calculate_score_v5_2 srow (App.WEIGHT_BY_STATE .TREND) = 2023 / 25 ∧
    App.calculate_score srow (App.WEIGHT_BY_STATE .TREND) = 2398 / 25 ∧
    (2023 / 25 : ℝ) + 15 = 2398 / 25 ∧ (2023 / 25 : ℝ) ≠ 2398 / 25 := by
  have habs : |srow.atr / srow.price - 0.03| = 3 / 200 := by
    rw [show srow.atr / srow.price = 3 / 200 from by norm_num [srow]]
    rw [abs_of_nonpos (by norm_num)]
    norm_num
  have hexp : Real.exp (-((((2 : ℚ) : ℝ) - 2) ^ 2) / 2) = 1 := by
    have h0 : (-((((2 : ℚ) : ℝ) - 2) ^ 2) / 2) = 0 := by norm_num
    rw [h0, Real.exp_zero]
  have hbslope : Bt.score_slope srow = 1 := by
    norm_num [Bt.score_slope, Bt.slope_pct, srow, max_def, min_def]
  have hbrisk : Bt.score_risk srow = 70 := by
    have h1 : Bt.atr_pct srow = srow.atr / srow.price := by
      rw [Bt.atr_pct, if_pos (by norm_num [srow])]
    rw [Bt.score_risk, h1, habs, max_eq_left (by norm_num)]
    norm_num
  have hbtrend : Bt.score_trend srow = 93 := by
    norm_num [Bt.score_trend, srow]
  have hbvol : Bt.score_vol srow = 100 := by
    rw [Bt.score_vol]
    show Real.exp (-(((srow.vol_ratio : ℚ) : ℝ) - 2) ^ 2 / 2) * 100 = 100
    norm_num [srow, hexp]
  have hbmom : Bt.score_momentum srow = 302 / 5 := by
    rw [Bt.score_momentum, hbslope, hbvol]
    norm_num
  have hv52 : Bt.calculate_score_v5_2 srow (App.WEIGHT_BY_STATE .TREND) = 2023 / 25 := by
    rw [Bt.calculate_score_v5_2, hbtrend, hbmom, hbrisk]
    norm_num [App.WEIGHT_BY_STATE]
  have haslope : App.score_slope srow = 1 := by
    norm_num [App.score_slope, App.slope_pct, srow, min_def]
  have harisk : App.score_risk srow = 70 := by
    rw [App.score_risk, habs, max_eq_left (by norm_num)]
    norm_num
  have hatrend : App.score_trend srow = 93 := by
    norm_num [App.score_trend, srow]
  have havol : App.score_vol srow = 100 := by
    rw [App.score_vol]
    show Real.exp (-(((srow.vol_ratio : ℚ) : ℝ) - 2) ^ 2 / 2) * 100 = 100
    norm_num [srow, hexp]
  have hamom : App.score_momentum srow = 302 / 5 := by
    rw [App.score_momentum, haslope, havol]
    norm_num
  have haplus : App.is_aplus srow = true := by
    simp only [App.is_aplus, decide_eq_true_eq]
    refine ⟨by norm_num [srow], by norm_num [srow], by norm_num [srow],
      by norm_num [srow], by norm_num [srow], ?_⟩
    rw [harisk]
    norm_num
  have happ : App.calculate_score srow (App.WEIGHT_BY_STATE .TREND) = 2398 / 25 := by
    rw [App.calculate_score, haplus, App.base_score, hatrend, hamom, harisk]
    rw [if_pos rfl]
    rw [min_eq_left (by norm_num [App.WEIGHT_BY_STATE])]
    norm_num [App.WEIGHT_BY_STATE]
  refine ⟨hv52, happ, by norm_num, by norm_num⟩

/-- C9: a pattern query with fewer than 5 bars of history (indeed, fewer
than 20) returns the neutral "資料不足" (insufficient data) result with
strength exactly 0, and never raises. -/
theorem C9_insufficient_data :
    ∀ (bars : List Bar) (m : Option ℚ), bars.length < 5 →
      App.analyze_kline_structure bars m =
        ("資料不足", 0, "K線樣本數過少，無法判讀。") := by
  intro bars m h
  unfold App.analyze_kline_structure
  rw [if_pos (by omega)]

/-- C9 witness: the theorem instantiated on an empty history and on a 3-bar
history. -/
theorem C9_insufficient_data_witness :
    App.analyze_kline_structure [] none =
      ("資料不足", 0, "K線樣本數過少，無法判讀。") ∧
    App.analyze_kline_structure
        [⟨100, 101, 99, 100⟩, ⟨100, 101, 99, 100⟩, ⟨100, 101, 99, 100⟩]
        (some 100) =
      ("資料不足", 0, "K線樣本數過少，無法判讀。") :=
  ⟨C9_insufficient_data [] none (by decide),
   C9_insufficient_data _ (some 100) (by decide)⟩

/-- C10: the raw relative-strength value is `(1 + s)/(1 + b)` for the
instrument's and benchmark's 20-day returns `s`, `b` — the ratio of gross
(1 + return) values, equivalently of 20-day price relatives — not the ratio
`s / b` of the returns themselves. -/
theorem C10_rs_raw_amended :
    (∀ (cs bs : List ℚ) (s b : ℚ),
      pct_change20_last cs = some s → pct_change20_last bs = some b →
      1 + b ≠ 0 → App.rs_raw cs bs = some ((1 + s) / (1 + b))) ∧
    (∀ c0 c1 b0 b1 : ℚ,
      (1 + (c1 / c0 - 1)) / (1 + (b1 / b0 - 1)) = (c1 / c0) / (b1 / b0)) := by
  constructor
  · intro cs bs s b h1 h2 h3
    simp only [App.rs_raw, h1, h2]
    rw [if_neg h3]
  · intro c0 c1 b0 b1
    ring_nf

lemma pct_cs21 : pct_change20_last cs21 = some (1 / 10) := by
  norm_num [pct_change20_last, cs21, List.getD, List.getLast?_cons_cons]

lemma pct_bs21 : pct_change20_last bs21 = some (1 / 20) := by
  norm_num [pct_change20_last, bs21, List.getD, List.getLast?_cons_cons]

/-- C10 witness: the theorem instantiated on concrete 21-bar series with
20-day returns 1/10 (instrument) and 1/20 (benchmark). -/
theorem C10_rs_raw_amended_witness :
    App.rs_raw cs21 bs21 = some ((1 + 1 / 10) / (1 + 1 / 20)) ∧
    (1 + ((11 : ℚ) / 10 - 1)) / (1 + ((21 : ℚ) / 20 - 1)) = (11 / 10) / (21 / 20) :=
  ⟨C10_rs_raw_amended.1 cs21 bs21 (1 / 10) (1 / 20) pct_cs21 pct_bs21 (by norm_num),
   C10_rs_raw_amended.2 10 11 20 21⟩

/-- C10 counterexample: with instrument return 1/10 and benchmark return
1/20 the code computes 22/21 ≈ 1.048, while the claimed "s divided by b"
would be 2. -/
theorem C10_rs_raw_counterexample :
    App.rs_raw cs21 bs21 = some (22 / 21) ∧
    App.rs_raw_specified cs21 bs21 = some 2 ∧
    (22 / 21 : ℚ) ≠ 2 := by
  refine ⟨?_, ?_, by norm_num⟩
  · simp only [App.rs_raw, pct_cs21, pct_bs21]
    rw [if_neg (by norm_num)]
    norm_num
  · simp only [App.rs_raw_specified, pct_cs21, pct_bs21]
    rw [if_neg (by norm_num)]
    norm_num
